import Mathlib

/-!
Shallow embedding of the kama entity server (`src/kama/server.py`).

The repository ships only `kama/server.py`; the database layer
(`kama.database`), the request-context layer (`kama.context`) and the
protobuf message definitions are referenced but absent, so those parts are
modelled from the specification (each such definition says so in its doc
comment).  Everything else is a direct translation of `server.py`.

Stores are finite lists of records; machine behaviour that matters to the
claims (protobuf string defaults, Python closure late binding in the filter
loops, the bare `assert`, the unbound `result` variable in `GetEntity`) is
embedded explicitly.
-/

namespace Kama

/-- A database entity: UUID, kind tag and human-readable name. -/
structure Entity where
  uuid : String
  kind : String
  name : String
deriving DecidableEq, Repr

/-- A key/value attribute owned by one entity. -/
structure Attribute where
  uuid : String
  entity_uuid : String
  key : String
  value : String
deriving DecidableEq, Repr

/-- A directed link (edge) between two entities. -/
structure Link where
  uuid : String
  from_uuid : String
  to_uuid : String
deriving DecidableEq, Repr

/-- A permission: capability `name` on `entity_uuid` granted to `role_uuid`. -/
structure Permission where
  uuid : String
  role_uuid : String
  entity_uuid : String
  name : String
deriving DecidableEq, Repr

/-- The backing store (the durable state behind `kama.database`). -/
structure Store where
  entities : List Entity
  attributes : List Attribute
  links : List Link
  permissions : List Permission
deriving DecidableEq, Repr

/-- The per-call request context: the authenticated caller's user entity. -/
structure Ctx where
  userUuid : String
deriving DecidableEq, Repr

/-- Possible failure outcomes of a handler, as surfaced to the RPC layer:
grpc status codes the code sets explicitly (`NOT_FOUND`,
`FAILED_PRECONDITION`), the `PermissionDeniedException` of the database
layer, and unhandled Python errors (`AssertionError` from the bare
`assert`, `TypeError` from an arity-mismatched call, `UnboundLocalError`
from reading a never-assigned variable).  `invalidArgument` is listed
because the specification's error taxonomy names it; no handler in
`server.py` ever produces it. -/
inductive Failure where
  | permissionDenied
  | assertionFailed
  | typeError
  | notFound
  | failedPrecondition
  | invalidArgument
  | unboundLocal
deriving DecidableEq, Repr

/-- Modelled from the spec: the role-enumeration step of §4.2, which is the
same enumeration `CreateEntity` performs in `server.py` (line 126):
`[x.from_entity() for x in request_context.user.links_to(context=...)]`,
i.e. the entities one membership link away from the user — the sources of
the user's incoming membership links. -/
def rolesOf (s : Store) (userUuid : String) : List String :=
  (s.links.filter (fun l => l.to_uuid == userUuid)).map (fun l => l.from_uuid)

/-- Modelled from the spec: `CanAccess(context, entity, capability)` (§4.2).
Enumerate the caller's roles with `rolesOf`, then look for a permission on
the entity granted to one of those roles whose name matches the capability;
default deny, never throws. -/
def canAccess (s : Store) (ctx : Ctx) (entityUuid : String) (capability : String) : Bool :=
  (rolesOf s ctx.userUuid).any (fun r =>
    s.permissions.any (fun p =>
      p.entity_uuid == entityUuid && p.role_uuid == r && p.name == capability))

/-- Modelled from the spec: the context-bearing accessor
`entity.attributes(context=...)` of the missing `kama.database`.  Reading a
candidate entity's sub-objects performs a read-capability check and raises
`PermissionDeniedException` when it fails (§4.2/§4.3). -/
def entityAttributes (s : Store) (ctx : Ctx) (e : Entity) : Except Failure (List Attribute) :=
  if canAccess s ctx e.uuid "read" then
    .ok (s.attributes.filter (fun a => a.entity_uuid == e.uuid))
  else .error .permissionDenied

/-- Modelled from the spec: `entity.attributes(key=..., context=...)`, the
keyed form of the attribute accessor, with the same read check. -/
def entityAttributesKeyed (s : Store) (ctx : Ctx) (e : Entity) (key : String) :
    Except Failure (List Attribute) :=
  if canAccess s ctx e.uuid "read" then
    .ok (s.attributes.filter (fun a => a.entity_uuid == e.uuid && a.key == key))
  else .error .permissionDenied

/-- Modelled from the spec: `entity.links_from(context=...)` — the entity's
outgoing links (each exposing its target via `entity_to`), guarded by the
read check. -/
def entityLinksFrom (s : Store) (ctx : Ctx) (e : Entity) : Except Failure (List Link) :=
  if canAccess s ctx e.uuid "read" then
    .ok (s.links.filter (fun l => l.from_uuid == e.uuid))
  else .error .permissionDenied

/-- Modelled from the spec: `entity.links_to(context=...)` — the entity's
incoming links (each exposing its source via `entity_from`), guarded by the
read check. -/
def entityLinksTo (s : Store) (ctx : Ctx) (e : Entity) : Except Failure (List Link) :=
  if canAccess s ctx e.uuid "read" then
    .ok (s.links.filter (fun l => l.to_uuid == e.uuid))
  else .error .permissionDenied

/-- Modelled from the spec: `entity.permissions(context=...)` — the
permissions granted on this entity, guarded by the read check. -/
def entityPermissions (s : Store) (ctx : Ctx) (e : Entity) : Except Failure (List Permission) :=
  if canAccess s ctx e.uuid "read" then
    .ok (s.permissions.filter (fun p => p.entity_uuid == e.uuid))
  else .error .permissionDenied

/-- The attribute sub-message of a returned protobuf Entity
(`server.py` lines 22-29: `entity.kind`/`entity.name` are copied from the
parent entity, `entity.uuid` from the attribute record). -/
structure PbAttribute where
  uuid : String
  entity_uuid : String
  entity_kind : String
  entity_name : String
  key : String
  value : String
deriving DecidableEq, Repr

/-- The link sub-message of a returned protobuf Entity. -/
structure PbLink where
  uuid : String
  from_uuid : String
  to_uuid : String
deriving DecidableEq, Repr

/-- The permission sub-message of a returned protobuf Entity. -/
structure PbPermission where
  uuid : String
  role_uuid : String
  entity_uuid : String
  name : String
deriving DecidableEq, Repr

/-- The protobuf Entity representation a handler returns to the caller. -/
structure PbEntity where
  uuid : String
  kind : String
  name : String
  attributes : List PbAttribute
  links_from : List PbLink
  links_to : List PbLink
  permissions : List PbPermission
deriving DecidableEq, Repr

/-- Translation of `entity_to_pb(context, entity)` (`server.py` lines
16-51): build the caller-visible representation through the four
context-bearing accessors, in source order; the first
`PermissionDeniedException` propagates. -/
def entity_to_pb (s : Store) (ctx : Ctx) (e : Entity) : Except Failure PbEntity :=
  match entityAttributes s ctx e with
  | .error f => .error f
  | .ok attrs =>
    match entityLinksFrom s ctx e with
    | .error f => .error f
    | .ok lf =>
      match entityLinksTo s ctx e with
      | .error f => .error f
      | .ok lt =>
        match entityPermissions s ctx e with
        | .error f => .error f
        | .ok perms =>
          .ok ⟨e.uuid, e.kind, e.name,
            attrs.map (fun a => ⟨a.uuid, a.entity_uuid, e.kind, e.name, a.key, a.value⟩),
            lf.map (fun l => ⟨l.uuid, l.from_uuid, l.to_uuid⟩),
            lt.map (fun l => ⟨l.uuid, l.from_uuid, l.to_uuid⟩),
            perms.map (fun p => ⟨p.uuid, p.role_uuid, p.entity_uuid, p.name⟩)⟩

/-- An attribute criterion of a search request (protobuf Attribute used as
a query field; unset string fields read as `""`). -/
structure AttributeCriterion where
  uuid : String
  key : String
  value : String
deriving DecidableEq, Repr

/-- A link criterion of a search request; only `to_entity.uuid` is read for
`links_from` criteria and only `from_entity.uuid` for `links_to` ones. -/
structure LinkCriterion where
  from_uuid : String
  to_uuid : String
deriving DecidableEq, Repr

/-- A permission criterion of a search request.  Modelled from the spec:
the `role` and `entity` sub-message fields are modelled with explicit
presence (`Option`, carrying the sub-message's uuid), so that a predicate
is built only for the fields the request names (§4.3: "any non-empty
combination of \x7bpermission identifier, role, target entity, capability
name\x7d ... each becoming its own independent predicate"). -/
structure PermissionCriterion where
  uuid : String
  role : Option String
  entity : Option String
  name : String
deriving DecidableEq, Repr

/-- The request message of `ListEntities`/`GetEntity`: a protobuf Entity
whose fields are read as search criteria. -/
structure EntityCriteria where
  uuid : String
  kind : String
  name : String
  attributes : List AttributeCriterion
  links_from : List LinkCriterion
  links_to : List LinkCriterion
  permissions : List PermissionCriterion
deriving DecidableEq, Repr

/-- The shape of one filter closure appended in the loops of
`ListEntities` (`server.py` lines 76-98).  The closures capture the loop
variables by reference, so no criterion parameters are stored here: Python
resolves `attribute`, `link` and `permission` only when the closure runs,
after every loop has finished — see `lastAttributeCriterion` and friends. -/
inductive FilterTag where
  | attrKeyVal
  | attrKey
  | linkFromTag
  | linkToTag
  | permUuid
  | permRole
  | permEntity
  | permName
deriving DecidableEq, Repr

/-- The value the name `attribute` holds when the filter closures actually
run: the last element of the criteria list (Python `for` leaves the loop
variable bound to the final item; the closures are late bound). -/
def lastAttributeCriterion (req : EntityCriteria) : AttributeCriterion :=
  req.attributes.getLast?.getD ⟨"", "", ""⟩

/-- The value the name `link` of the `links_from` loop holds when the
filter closures run (late binding, as above). -/
def lastLinkFromCriterion (req : EntityCriteria) : LinkCriterion :=
  req.links_from.getLast?.getD ⟨"", ""⟩

/-- The value the name `link` of the `links_to` loop holds when the filter
closures run (late binding, as above). -/
def lastLinkToCriterion (req : EntityCriteria) : LinkCriterion :=
  req.links_to.getLast?.getD ⟨"", ""⟩

/-- The value the name `permission` holds when the filter closures run
(late binding, as above). -/
def lastPermissionCriterion (req : EntityCriteria) : PermissionCriterion :=
  req.permissions.getLast?.getD ⟨"", none, none, ""⟩

/-- Which filter closures the loops of `ListEntities` append, in source
order: per attribute criterion one closure chosen by the criterion's own
key/value at append time (the `if`/`elif` runs inside the loop), one
closure per link criterion, and per permission criterion one closure for
each named field. -/
def filtersOfCriteria (req : EntityCriteria) : List FilterTag :=
  (req.attributes.map (fun a =>
      if a.key ≠ "" ∧ a.value ≠ "" then [FilterTag.attrKeyVal]
      else if a.key ≠ "" then [FilterTag.attrKey]
      else [])).flatten
  ++ req.links_from.map (fun _ => FilterTag.linkFromTag)
  ++ req.links_to.map (fun _ => FilterTag.linkToTag)
  ++ (req.permissions.map (fun p =>
      (if p.uuid ≠ "" then [FilterTag.permUuid] else [])
      ++ (if p.role.isSome then [FilterTag.permRole] else [])
      ++ (if p.entity.isSome then [FilterTag.permEntity] else [])
      ++ (if p.name ≠ "" then [FilterTag.permName] else []))).flatten

/-- Running one filter closure on a candidate entity `x`: the match set is
computed through the permission-checked accessors and only its
non-emptiness feeds `bool(...)` in `combo_filter`.  Every closure reads its
criterion parameters from the final loop-variable values (late binding).
An absent `role`/`entity` sub-message reads as uuid `""`. -/
def runFilter (s : Store) (ctx : Ctx) (req : EntityCriteria) (x : Entity) :
    FilterTag → Except Failure Bool
  | .attrKeyVal =>
    let a := lastAttributeCriterion req
    (entityAttributesKeyed s ctx x a.key).map
      (fun ys => !(ys.filter (fun y => y.value == a.value)).isEmpty)
  | .attrKey =>
    let a := lastAttributeCriterion req
    (entityAttributesKeyed s ctx x a.key).map (fun ys => !ys.isEmpty)
  | .linkFromTag =>
    let l := lastLinkFromCriterion req
    (entityLinksFrom s ctx x).map
      (fun ys => !(ys.filter (fun y => y.to_uuid == l.to_uuid)).isEmpty)
  | .linkToTag =>
    let l := lastLinkToCriterion req
    (entityLinksTo s ctx x).map
      (fun ys => !(ys.filter (fun y => y.from_uuid == l.from_uuid)).isEmpty)
  | .permUuid =>
    let p := lastPermissionCriterion req
    (entityPermissions s ctx x).map
      (fun ys => !(ys.filter (fun y => y.uuid == p.uuid)).isEmpty)
  | .permRole =>
    let p := lastPermissionCriterion req
    (entityPermissions s ctx x).map
      (fun ys => !(ys.filter (fun y => y.role_uuid == p.role.getD "")).isEmpty)
  | .permEntity =>
    let p := lastPermissionCriterion req
    (entityPermissions s ctx x).map
      (fun ys => !(ys.filter (fun y => y.entity_uuid == p.entity.getD "")).isEmpty)
  | .permName =>
    let p := lastPermissionCriterion req
    (entityPermissions s ctx x).map (fun ys => !(ys.filter (fun y => y.name == p.name)).isEmpty)

/-- Translation of `combo_filter` (`server.py` line 100):
`all([bool(y(x)) for y in filters])` — the comprehension runs every closure
left to right, the first `PermissionDeniedException` propagates, then `all`
conjoins the booleans. -/
def comboFilter (s : Store) (ctx : Ctx) (req : EntityCriteria) (x : Entity) :
    Except Failure Bool := do
  let bs ← (filtersOfCriteria req).mapM (runFilter s ctx req x)
  pure (bs.all id)

/-- The candidate set of a general search (`server.py` lines 69-74): all
entities of the requested kind if one is given, else the full entity set. -/
def candidateSet (s : Store) (req : EntityCriteria) : List Entity :=
  if req.kind ≠ "" then s.entities.filter (fun e => e.kind == req.kind)
  else s.entities

/-- One iteration of the yield loop (`server.py` lines 101-106): run
`combo_filter` and, on a pass, `entity_to_pb`, all inside a
`try ... except PermissionDeniedException: pass` — a denial anywhere makes
the candidate yield nothing. -/
def candidateYield (s : Store) (ctx : Ctx) (req : EntityCriteria) (x : Entity) :
    Option PbEntity :=
  match comboFilter s ctx req x with
  | .error _ => none
  | .ok false => none
  | .ok true =>
    match entity_to_pb s ctx x with
    | .error _ => none
    | .ok p => some p

/-- What `ListEntities` yields: either a raw `kama.database.Entity` handle
(the short-circuit paths yield the bare object constructed from the
request's uuid, not a protobuf) or a protobuf representation. -/
inductive Yielded where
  | raw (uuid : String)
  | pb (p : PbEntity)
deriving DecidableEq, Repr

/-- Translation of `DatabaseServicer.ListEntities` (`server.py` lines
55-106).  Short-circuit paths: a request uuid yields
`kama.database.Entity(entity.uuid)` raw, with no permission evaluation and
no `entity_to_pb`; a request name calls `Entity.get_by_name(entity.name)`
with a single argument — modelled from the spec, `get_by_name` is the
two-argument `(kind, name)` secondary-index lookup (§3, and the call in
`GetEntity` line 114), so this call fails with a `TypeError`.  Otherwise
the general search: bare `assert not attribute.uuid` per attribute
criterion, then filter building and the swallowing yield loop. -/
def ListEntities (s : Store) (ctx : Ctx) (req : EntityCriteria) :
    Except Failure (List Yielded) :=
  if req.uuid ≠ "" then .ok [Yielded.raw req.uuid]
  else if req.name ≠ "" then .error .typeError
  else if req.attributes.any (fun a => a.uuid != "") then .error .assertionFailed
  else
    .ok ((candidateSet s req).filterMap
      (fun x => (candidateYield s ctx req x).map Yielded.pb))

/-- Modelled from the spec: resolving `kama.database.Entity(uuid)` against
the store — the point lookup of §4.3, yielding the entity or a falsy
nothing. -/
def entityByUuid (s : Store) (uuid : String) : Option Entity :=
  (s.entities.filter (fun e => e.uuid == uuid)).head?

/-- Modelled from the spec: `Entity.get_by_name(kind, name)` — the
secondary-index lookup on the `(kind, name)` key (§3), with the
two-argument signature `GetEntity` uses. -/
def get_by_name (s : Store) (kind name : String) : Option Entity :=
  (s.entities.filter (fun e => e.kind == kind && e.name == name)).head?

/-- Translation of `DatabaseServicer.GetEntity` (`server.py` lines
108-120): uuid branch, `(kind and name)` branch, then `if result:` —
when neither branch assigned `result`, reading it raises
`UnboundLocalError`; a falsy result sets the `NOT_FOUND` status. -/
def GetEntity (s : Store) (ctx : Ctx) (req : EntityCriteria) : Except Failure PbEntity :=
  if req.uuid ≠ "" then
    match entityByUuid s req.uuid with
    | some e => entity_to_pb s ctx e
    | none => .error .notFound
  else if req.kind ≠ "" ∧ req.name ≠ "" then
    match get_by_name s req.kind req.name with
    | some e => entity_to_pb s ctx e
    | none => .error .notFound
  else .error .unboundLocal

/-- The request of `CreateEntity`: the new entity's kind and name and the
owner role's uuid. -/
structure CreateRequest where
  kind : String
  name : String
  owner_role_uuid : String
deriving DecidableEq, Repr

/-- Modelled from the spec: the permissions `Entity.create` grants the
owner role on the new entity, so that members of the owner role can "get
or modify the new entity" (the comment at `server.py` lines 127-129, and
§3's ownership invariant).  Permission identifiers are fresh, derived here
from the entity's fresh uuid. -/
def createdPermissions (freshUuid ownerUuid : String) : List Permission :=
  [⟨freshUuid ++ "/read", ownerUuid, freshUuid, "read"⟩,
   ⟨freshUuid ++ "/write", ownerUuid, freshUuid, "write"⟩]

/-- Modelled from the spec: `Entity.create(kind, name, owner)` — persist a
new entity under a fresh identifier and grant the owner role access. -/
def entityCreate (s : Store) (kind name ownerUuid freshUuid : String) : Entity × Store :=
  let e : Entity := ⟨freshUuid, kind, name⟩
  (e, ⟨s.entities ++ [e], s.attributes, s.links,
       s.permissions ++ createdPermissions freshUuid ownerUuid⟩)

/-- Translation of `DatabaseServicer.CreateEntity` (`server.py` lines
122-134): if the owner role is not among the caller's membership roles
(the enumeration of `rolesOf`), set `FAILED_PRECONDITION` and return with
the store untouched; otherwise create the entity and return its
representation.  The fresh identifier is passed explicitly. -/
def CreateEntity (s : Store) (ctx : Ctx) (freshUuid : String) (req : CreateRequest) :
    Except Failure PbEntity × Store :=
  if req.owner_role_uuid ∈ rolesOf s ctx.userUuid then
    let es := entityCreate s req.kind req.name req.owner_role_uuid freshUuid
    (entity_to_pb es.2 ctx es.1, es.2)
  else (.error .failedPrecondition, s)

/-- Translation of `DatabaseServicer.DeleteAttributes` (`server.py` lines
155-159) over the modelled `entity.delete_attributes(key=..., context=...)`
of the spec (§4.4): require write capability, then remove every attribute
of the entity with the given key (bulk delete by key). -/
def DeleteAttributes (s : Store) (ctx : Ctx) (entityUuid key : String) :
    Except Failure Store :=
  if canAccess s ctx entityUuid "write" then
    .ok ⟨s.entities,
         s.attributes.filter (fun a => !(a.entity_uuid == entityUuid && a.key == key)),
         s.links, s.permissions⟩
  else .error .permissionDenied

end Kama

/-! Concrete fixtures used by the counterexample and witness theorems. -/

namespace Kama

/-- An empty store. -/
def sEmpty : Store := ⟨[], [], [], []⟩

/-- A store holding one entity and no links or permissions at all. -/
def sC1 : Store := ⟨[⟨"e1", "document", "doc1"⟩], [], [], []⟩

/-- A search request naming only an entity identifier. -/
def reqC1 : EntityCriteria := ⟨"e1", "", "", [], [], [], []⟩

/-- A store with one readable entity carrying a single attribute
`b = 2` and no attribute with key `a`. -/
def sC2 : Store :=
  ⟨[⟨"x1", "doc", "x"⟩], [⟨"a1", "x1", "b", "2"⟩], [⟨"l1", "r1", "u2"⟩],
   [⟨"p1", "r1", "x1", "read"⟩]⟩

/-- A search with two attribute criteria: key `a` and key `b`. -/
def reqC2 : EntityCriteria := ⟨"", "doc", "", [⟨"", "a", ""⟩, ⟨"", "b", ""⟩], [], [], []⟩

/-- The representation of `x1` as visible to `u2`. -/
def pbC2 : PbEntity :=
  ⟨"x1", "doc", "x", [⟨"a1", "x1", "doc", "x", "b", "2"⟩], [], [],
   [⟨"p1", "r1", "x1", "read"⟩]⟩

/-- A store where user `u3` is a member of role `r3`. -/
def sC3 : Store :=
  ⟨[⟨"u3", "user", "alice"⟩, ⟨"r3", "role", "admins"⟩], [], [⟨"l3", "r3", "u3"⟩], []⟩

/-- A creation request owned by the caller's role `r3`. -/
def reqC3good : CreateRequest := ⟨"doc", "d", "r3"⟩

/-- A creation request owned by a role the caller is not a member of. -/
def reqC3bad : CreateRequest := ⟨"doc", "d", "rx"⟩

/-- A store with one entity the caller cannot read (`hidden1`) and one it
can (`vis1`, which carries attribute `k = 1`). -/
def sC4 : Store :=
  ⟨[⟨"hidden1", "doc", "h"⟩, ⟨"vis1", "doc", "v"⟩], [⟨"a2", "vis1", "k", "1"⟩],
   [⟨"l2", "r4", "u4"⟩], [⟨"p4", "r4", "vis1", "read"⟩]⟩

/-- A general search for entities of kind `doc` having attribute key `k`. -/
def reqC4 : EntityCriteria := ⟨"", "doc", "", [⟨"", "k", ""⟩], [], [], []⟩

/-- The representation of `vis1` as visible to `u4`. -/
def pbC4 : PbEntity :=
  ⟨"vis1", "doc", "v", [⟨"a2", "vis1", "doc", "v", "k", "1"⟩], [], [],
   [⟨"p4", "r4", "vis1", "read"⟩]⟩

/-- A store with one entity addressable by `(kind, name)` and readable by
the caller `u5`. -/
def sC5 : Store :=
  ⟨[⟨"d1", "document", "doc1"⟩], [], [⟨"l5", "r5", "u5"⟩], [⟨"p5", "r5", "d1", "read"⟩]⟩

/-- A request naming `(kind, name)` but no identifier. -/
def reqC5 : EntityCriteria := ⟨"", "document", "doc1", [], [], [], []⟩

/-- The representation of `d1` as visible to `u5`. -/
def pbC5 : PbEntity := ⟨"d1", "document", "doc1", [], [], [], [⟨"p5", "r5", "d1", "read"⟩]⟩

/-- A store with one entity carrying an attribute and granting nobody any
permission. -/
def sC6 : Store := ⟨[⟨"e6", "doc", "n6"⟩], [⟨"a6", "e6", "secret", "s"⟩], [], []⟩

/-- The entity stored in `sC6`. -/
def eC6 : Entity := ⟨"e6", "doc", "n6"⟩

/-- A request naming only the identifier of `e6`. -/
def reqC6 : EntityCriteria := ⟨"e6", "", "", [], [], [], []⟩

/-- A search request whose attribute criterion carries an attribute
identifier. -/
def reqC7 : EntityCriteria := ⟨"", "", "", [⟨"au1", "k", "v"⟩], [], [], []⟩

/-- A point lookup by an identifier that matches nothing. -/
def reqC8u : EntityCriteria := ⟨"zz", "", "", [], [], [], []⟩

/-- A point lookup by a `(kind, name)` pair that matches nothing. -/
def reqC8kn : EntityCriteria := ⟨"", "document", "ghost", [], [], [], []⟩

/-- A store where user `u9` may write entity `e9`, which has one `k`
attribute and one `k2` attribute. -/
def sC9 : Store :=
  ⟨[⟨"e9", "doc", "n9"⟩], [⟨"a9", "e9", "k", "v"⟩, ⟨"b9", "e9", "k2", "w"⟩],
   [⟨"l9", "r9", "u9"⟩], [⟨"p9", "r9", "e9", "write"⟩]⟩

/-- The store `sC9` after the `k` attributes of `e9` are deleted. -/
def sC9after : Store :=
  ⟨[⟨"e9", "doc", "n9"⟩], [⟨"b9", "e9", "k2", "w"⟩],
   [⟨"l9", "r9", "u9"⟩], [⟨"p9", "r9", "e9", "write"⟩]⟩

/-- A `GetEntity` request naming a kind but neither identifier nor name. -/
def reqC10 : EntityCriteria := ⟨"", "doc", "", [], [], [], []⟩

/-- Every accessor of `entity_to_pb` succeeds once the read check passes,
and the resulting representation keeps the entity's identity fields. -/
theorem entity_to_pb_ok (s : Store) (ctx : Ctx) (e : Entity)
    (h : canAccess s ctx e.uuid "read" = true) :
    ∃ p, entity_to_pb s ctx e = Except.ok p ∧ p.uuid = e.uuid ∧ p.kind = e.kind ∧
      p.name = e.name := by
  simp [entity_to_pb, entityAttributes, entityLinksFrom, entityLinksTo, entityPermissions, h]

end Kama

namespace Kama

/-- C1: refuted on the code — at a concrete input, `ListEntities` with an
identifier criterion yields the entity as a raw database handle even though
`CanAccess(caller, entity, read)` is false; the identifier short-circuit
performs no permission evaluation at all. -/
theorem listEntities_uuid_shortcircuit_skips_canAccess :
    ListEntities sC1 ⟨"u1"⟩ reqC1 = Except.ok [Yielded.raw "e1"] ∧
    canAccess sC1 ⟨"u1"⟩ "e1" "read" = false :=
  ⟨rfl, rfl⟩

/-- C2: refuted on the code — with two attribute criteria (keys `a` and
`b`), Python's late closure binding makes both predicates read the last
criterion, so an entity that has a `b` attribute but no `a` attribute is
still included in the results. -/
theorem listEntities_late_binding_merges_attribute_criteria :
    ListEntities sC2 ⟨"u2"⟩ reqC2 = Except.ok [Yielded.pb pbC2] ∧
    sC2.attributes.filter (fun a => a.entity_uuid == "x1" && a.key == "a") = [] :=
  ⟨rfl, rfl⟩

/-- C3: when the owner role is not among the caller's membership roles,
`CreateEntity` fails with `FailedPrecondition` and the store is unchanged;
when it is, a fresh entity with the requested kind and name is appended to
the store and its representation is returned. -/
theorem createEntity_ownership_invariant (s : Store) (ctx : Ctx) (freshUuid : String)
    (req : CreateRequest) :
    (req.owner_role_uuid ∉ rolesOf s ctx.userUuid →
      CreateEntity s ctx freshUuid req = (Except.error Failure.failedPrecondition, s)) ∧
    (req.owner_role_uuid ∈ rolesOf s ctx.userUuid →
      ∃ p s2, CreateEntity s ctx freshUuid req = (Except.ok p, s2) ∧
        p.uuid = freshUuid ∧ p.kind = req.kind ∧ p.name = req.name ∧
        s2.entities = s.entities ++ [⟨freshUuid, req.kind, req.name⟩]) := by
  constructor
  · intro h
    unfold CreateEntity
    rw [if_neg h]
  · intro h
    have hacc : canAccess
        ⟨s.entities ++ [⟨freshUuid, req.kind, req.name⟩], s.attributes, s.links,
         s.permissions ++ createdPermissions freshUuid req.owner_role_uuid⟩
        ctx freshUuid "read" = true := by
      simp only [canAccess, List.any_eq_true]
      refine ⟨req.owner_role_uuid, h, ?_⟩
      refine ⟨⟨freshUuid ++ "/read", req.owner_role_uuid, freshUuid, "read"⟩, ?_, ?_⟩
      · simp [createdPermissions]
      · simp
    obtain ⟨p, hp, hu, hk, hn⟩ := entity_to_pb_ok
      ⟨s.entities ++ [⟨freshUuid, req.kind, req.name⟩], s.attributes, s.links,
       s.permissions ++ createdPermissions freshUuid req.owner_role_uuid⟩
      ctx ⟨freshUuid, req.kind, req.name⟩ hacc
    refine ⟨p,
      ⟨s.entities ++ [⟨freshUuid, req.kind, req.name⟩], s.attributes, s.links,
       s.permissions ++ createdPermissions freshUuid req.owner_role_uuid⟩,
      ?_, hu, hk, hn, rfl⟩
    unfold CreateEntity entityCreate
    rw [if_pos h]
    exact congrArg (fun z => (z, _)) hp

/-- C3 witness: at a concrete store where `u3` is a member of `r3` only,
creation under `rx` fails with the store unchanged and creation under `r3`
appends the fresh entity. -/
theorem createEntity_ownership_invariant_witness :
    CreateEntity sC3 ⟨"u3"⟩ "f3" reqC3bad = (Except.error Failure.failedPrecondition, sC3) ∧
    ∃ p s2, CreateEntity sC3 ⟨"u3"⟩ "f3" reqC3good = (Except.ok p, s2) ∧
      p.uuid = "f3" ∧ p.kind = "doc" ∧ p.name = "d" ∧
      s2.entities = sC3.entities ++ [⟨"f3", "doc", "d"⟩] :=
  ⟨(createEntity_ownership_invariant sC3 ⟨"u3"⟩ "f3" reqC3bad).1 (by decide),
   (createEntity_ownership_invariant sC3 ⟨"u3"⟩ "f3" reqC3good).2 (by decide)⟩

/-- C4: a general search (no identifier, no name, no attribute-identifier
criterion) never surfaces a permission denial as a call-level error: the
stream is the permission-filtered enumeration of the candidate set, a
candidate whose predicate evaluation raises a denial yields nothing, and a
candidate whose representation raises a denial yields nothing — the
remaining candidates are still enumerated by the same `filterMap`. -/
theorem listEntities_search_swallows_denials (s : Store) (ctx : Ctx) (req : EntityCriteria)
    (h1 : req.uuid = "") (h2 : req.name = "")
    (h3 : req.attributes.any (fun a => a.uuid != "") = false) :
    ListEntities s ctx req =
      Except.ok ((candidateSet s req).filterMap
        (fun x => (candidateYield s ctx req x).map Yielded.pb)) ∧
    (∀ x : Entity, comboFilter s ctx req x = Except.error Failure.permissionDenied →
      candidateYield s ctx req x = none) ∧
    (∀ x : Entity, entity_to_pb s ctx x = Except.error Failure.permissionDenied →
      candidateYield s ctx req x = none) := by
  refine ⟨?_, ?_, ?_⟩
  · simp [ListEntities, h1, h2, h3]
  · intro x hx
    simp [candidateYield, hx]
  · intro x hx
    unfold candidateYield
    cases hcf : comboFilter s ctx req x with
    | error f => rfl
    | ok b =>
      cases b with
      | false => rfl
      | true => rw [hx]

/-- C4 witness: on a concrete store where the caller can read `vis1` but
not `hidden1`, the general search succeeds and streams exactly the
readable, matching entity. -/
theorem listEntities_search_swallows_denials_witness :
    ListEntities sC4 ⟨"u4"⟩ reqC4 = Except.ok [Yielded.pb pbC4] :=
  ((listEntities_search_swallows_denials sC4 ⟨"u4"⟩ reqC4 rfl rfl rfl).1).trans (by rfl)

/-- C5: refuted on the code — for criteria naming `(kind, name)`,
`GetEntity` performs the two-argument secondary-index lookup, but the
`ListEntities` name short-circuit passes only the name to that lookup
(ignoring the request's kind), so the same request that `GetEntity`
resolves makes `ListEntities` fail with the arity error instead of doing a
`(kind, name)` lookup. -/
theorem listEntities_name_shortcircuit_mismatched_lookup :
    ListEntities sC5 ⟨"u5"⟩ reqC5 = Except.error Failure.typeError ∧
    GetEntity sC5 ⟨"u5"⟩ reqC5 = Except.ok pbC5 :=
  ⟨rfl, rfl⟩

/-- C6: refuted on the code — the `ListEntities` identifier short-circuit
returns the raw database object instead of a representation built through
the permission-filtered accessors: at a concrete input the caller receives
`Yielded.raw "e6"` although building the filtered representation of `e6`
for that caller is denied. -/
theorem listEntities_shortcircuit_bypasses_filtered_representation :
    ListEntities sC6 ⟨"u6"⟩ reqC6 = Except.ok [Yielded.raw "e6"] ∧
    entity_to_pb sC6 ⟨"u6"⟩ eC6 = Except.error Failure.permissionDenied :=
  ⟨rfl, rfl⟩

/-- C7 counterexample: a search whose attribute criterion carries an
attribute identifier fails with the bare assertion's `AssertionError`, not
with an `InvalidArgument` status. -/
theorem listEntities_attribute_uuid_not_invalidArgument :
    ListEntities sEmpty ⟨"u7"⟩ reqC7 = Except.error Failure.assertionFailed ∧
    decide (Failure.assertionFailed = Failure.invalidArgument) = false :=
  ⟨rfl, rfl⟩

/-- C7 amended: every general search request whose criteria include an
attribute carrying an attribute identifier fails — by the bare
`assert not attribute.uuid` raising an unhandled `AssertionError`, not by
an `InvalidArgument` status — before any predicate is built or any result
yielded. -/
theorem listEntities_attribute_uuid_assertion_failure (s : Store) (ctx : Ctx)
    (req : EntityCriteria) (h1 : req.uuid = "") (h2 : req.name = "")
    (h3 : req.attributes.any (fun a => a.uuid != "") = true) :
    ListEntities s ctx req = Except.error Failure.assertionFailed := by
  simp [ListEntities, h1, h2, h3]

/-- C7 witness: the amended statement evaluated at a concrete request. -/
theorem listEntities_attribute_uuid_assertion_failure_witness :
    ListEntities sEmpty ⟨"u7"⟩ reqC7 = Except.error Failure.assertionFailed :=
  listEntities_attribute_uuid_assertion_failure sEmpty ⟨"u7"⟩ reqC7 rfl rfl rfl

/-- C8: a `GetEntity` point lookup—by identifier, or by `(kind, name)`—that
matches no entity returns the distinguished `NotFound` outcome. -/
theorem getEntity_point_lookup_notFound (s : Store) (ctx : Ctx) (req : EntityCriteria) :
    (req.uuid ≠ "" → entityByUuid s req.uuid = none →
      GetEntity s ctx req = Except.error Failure.notFound) ∧
    (req.uuid = "" → req.kind ≠ "" → req.name ≠ "" →
      get_by_name s req.kind req.name = none →
      GetEntity s ctx req = Except.error Failure.notFound) := by
  constructor
  · intro h1 h2
    simp [GetEntity, h1, h2]
  · intro h1 h2 h3 h4
    simp [GetEntity, h1, h2, h3, h4]

/-- C8 witness: both lookup forms evaluated against the empty store. -/
theorem getEntity_point_lookup_notFound_witness :
    GetEntity sEmpty ⟨"u8"⟩ reqC8u = Except.error Failure.notFound ∧
    GetEntity sEmpty ⟨"u8"⟩ reqC8kn = Except.error Failure.notFound :=
  ⟨(getEntity_point_lookup_notFound sEmpty ⟨"u8"⟩ reqC8u).1 (by decide) rfl,
   (getEntity_point_lookup_notFound sEmpty ⟨"u8"⟩ reqC8kn).2 rfl (by decide) (by decide) rfl⟩

/-- C9: `DeleteAttributes` is idempotent: if a first call succeeds, the
second call on the resulting store succeeds, changes nothing, and the store
holds no attribute of that entity and key. -/
theorem deleteAttributes_idempotent (s s2 : Store) (ctx : Ctx) (entityUuid key : String)
    (h : DeleteAttributes s ctx entityUuid key = Except.ok s2) :
    DeleteAttributes s2 ctx entityUuid key = Except.ok s2 ∧
    s2.attributes.filter (fun a => a.entity_uuid == entityUuid && a.key == key) = [] := by
  unfold DeleteAttributes at h
  by_cases hc : canAccess s ctx entityUuid "write" = true
  · rw [if_pos hc] at h
    injection h with h
    subst h
    have hc2 : canAccess
        ⟨s.entities,
         s.attributes.filter (fun a => !(a.entity_uuid == entityUuid && a.key == key)),
         s.links, s.permissions⟩ ctx entityUuid "write" = true := hc
    constructor
    · unfold DeleteAttributes
      rw [if_pos hc2]
      refine congrArg Except.ok ?_
      refine congrArg (fun l => Store.mk s.entities l s.links s.permissions) ?_
      rw [List.filter_filter]
      exact List.filter_congr (fun a _ => by rw [Bool.and_self])
    · rw [List.filter_filter]
      refine List.filter_eq_nil_iff.mpr (fun a _ => ?_)
      simp
  · rw [if_neg hc] at h
    exact absurd h (by simp)

/-- C9 witness: a concrete first deletion succeeds, and the theorem gives
the second call's success and the absence of residual `k` attributes. -/
theorem deleteAttributes_idempotent_witness :
    DeleteAttributes sC9after ⟨"u9"⟩ "e9" "k" = Except.ok sC9after ∧
    sC9after.attributes.filter (fun a => a.entity_uuid == "e9" && a.key == "k") = [] :=
  deleteAttributes_idempotent sC9 sC9after ⟨"u9"⟩ "e9" "k" rfl

/-- C10: a `GetEntity` request providing neither an identifier nor both
kind and name makes the handler fail with the unhandled
`UnboundLocalError` of the never-assigned `result` variable. -/
theorem getEntity_missing_criteria_unbound (s : Store) (ctx : Ctx) (req : EntityCriteria)
    (h1 : req.uuid = "") (h2 : ¬(req.kind ≠ "" ∧ req.name ≠ "")) :
    GetEntity s ctx req = Except.error Failure.unboundLocal := by
  unfold GetEntity
  rw [if_neg (by simp [h1]), if_neg h2]

/-- C10 witness: a kind-only request evaluated against the empty store. -/
theorem getEntity_missing_criteria_unbound_witness :
    GetEntity sEmpty ⟨"u10"⟩ reqC10 = Except.error Failure.unboundLocal :=
  getEntity_missing_criteria_unbound sEmpty ⟨"u10"⟩ reqC10 rfl (by decide)

end Kama
